import Mathlib

/-!
Shallow embedding of the loda-mcp server (src/index.ts): the MCP error model,
the JavaScript dynamic-value fragment the dispatcher manipulates, the LODA API
client, the tool registry, the request dispatcher, and the HTTP session layer.
All definitions are translated from the source; the transport internals that
live in the MCP SDK (outside this repository) are modelled from the spec and
marked as such.
-/

namespace LodaMcp

/-- Error codes of the MCP protocol used by the source (`ErrorCode` in the SDK). -/
inductive ErrorCode where
  | MethodNotFound
  | InvalidParams
  | InternalError
deriving DecidableEq, Repr

/-- Numeric JSON-RPC code of each `ErrorCode`, as in the MCP SDK. -/
def ErrorCode.codeNum : ErrorCode → Int
  | .MethodNotFound => -32601
  | .InvalidParams => -32602
  | .InternalError => -32603

/-- Model of `McpError`: the error code together with the message passed to the
constructor. -/
structure McpError where
  code : ErrorCode
  msg : String
deriving DecidableEq, Repr

/-- Message stored on the underlying JavaScript `Error` object: `McpError`
calls `super` with the text "MCP error <code>: <message>". Reading `.message`
on a caught `McpError` yields this string, not the raw constructor argument. -/
def McpError.jsMessage (e : McpError) : String :=
  "MCP error " ++ toString e.code.codeNum ++ ": " ++ e.msg

/-- The fragment of JavaScript values the dispatcher manipulates: the JSON
values a tool call can carry, plus `undefined` for absent fields. Numbers are
restricted to integers, which covers every numeric value the server's schemas
and claims exercise. -/
inductive JSValue where
  | undefined
  | null
  | boolean (b : Bool)
  | num (n : Int)
  | str (s : String)
  | obj (fields : List (String × JSValue))
  | arr (elems : List JSValue)

/-- JavaScript truthiness on the modelled fragment. -/
def jsTruthy : JSValue → Bool
  | .undefined => false
  | .null => false
  | .boolean b => b
  | .num n => n ≠ 0
  | .str s => s ≠ ""
  | .obj _ => true
  | .arr _ => true

/-- JavaScript `typeof` on the modelled fragment (`typeof null` is "object",
and arrays are objects). -/
def typeOf : JSValue → String
  | .undefined => "undefined"
  | .null => "object"
  | .boolean _ => "boolean"
  | .num _ => "number"
  | .str _ => "string"
  | .obj _ => "object"
  | .arr _ => "object"

mutual
/-- Stringification of an array: elements joined by "," with `null` and
`undefined` rendered empty, as JavaScript `Array.prototype.toString` does. -/
def jsArrString : List JSValue → String
  | [] => ""
  | [v] => jsElemString v
  | v :: rest => jsElemString v ++ "," ++ jsArrString rest

/-- Stringification of a single array element. -/
def jsElemString : JSValue → String
  | .undefined => ""
  | .null => ""
  | .boolean b => if b then "true" else "false"
  | .num n => toString n
  | .str s => s
  | .obj _ => "[object Object]"
  | .arr elems => jsArrString elems
end

/-- JavaScript `String(v)` coercion, as applied by template interpolation and
by `RegExp.prototype.test` to a non-string argument. -/
def jsToString : JSValue → String
  | .undefined => "undefined"
  | .null => "null"
  | .boolean b => if b then "true" else "false"
  | .num n => toString n
  | .str s => s
  | .obj _ => "[object Object]"
  | .arr elems => jsArrString elems

/-- Property read `v[k]` as used by object destructuring: `undefined` when the
receiver is not an object or lacks the field. -/
def getField (v : JSValue) (k : String) : JSValue :=
  match v with
  | .obj fields =>
    match fields.lookup k with
    | some x => x
    | none => .undefined
  | _ => .undefined

/-- Underlying string of a value known to be a string (every use site is
guarded by a `typeof v === "string"` check in the source). -/
def strOf : JSValue → String
  | .str s => s
  | _ => ""

/-- The identifier test `/^A\d{6,}$/.test(s)`: the letter `A` followed by at
least six decimal digits, anchored at both ends. -/
def testIdPattern (s : String) : Bool :=
  match s.data with
  | [] => false
  | c :: rest => c = 'A' && decide (6 ≤ rest.length) && rest.all (fun d => d.isDigit)

/-! ## API data model (the OpenAPI response shapes declared in the source) -/

/-- Details of a sequence, per the `SequenceDetails` interface. Optional fields
use `none` for `undefined`/`null`. -/
structure SequenceDetails where
  id : String
  name : String
  terms : List String
  keywords : Option (List String)
  oeisRef : Option String
deriving DecidableEq, Repr

/-- Details of a program, per the `ProgramDetails` interface. -/
structure ProgramDetails where
  id : String
  name : String
  code : String
  submitter : Option String
  keywords : Option (List String)
  operations : Option (List String)
deriving DecidableEq, Repr

/-- One entry of a search response. -/
structure SearchItem where
  id : String
  name : String
deriving DecidableEq, Repr

/-- Body of a search response: `{ total, results }`. -/
structure SearchResult where
  total : Int
  results : List SearchItem
deriving DecidableEq, Repr

/-- Body of an eval response, per the `EvalResult` interface. -/
structure EvalResult where
  terms : List String
deriving DecidableEq, Repr

/-- Body of the stats summary response, per the `StatsSummary` interface. -/
structure StatsSummary where
  numSequences : Int
  numPrograms : Int
  numFormulas : Int
deriving DecidableEq, Repr

/-- One entry of the submitters response, per the `Submitter` interface. -/
structure Submitter where
  name : String
  numPrograms : Int
deriving DecidableEq, Repr

/-! ## API client

The handlers reach the network only through `LODAApiClient`'s typed methods.
An outbound request is recorded as the method invoked together with the
arguments the handler passed; pagination and eval options are recorded as the
raw JavaScript values handed to the client, since the source forwards them
without conversion. -/

/-- One outbound request to the remote LODA API, identified by the client
method and its arguments. -/
inductive ApiRequest where
  | getSequence (id : String)
  | searchSequences (q : String) (limit skip : JSValue)
  | getProgram (id : String)
  | searchPrograms (q : String) (limit skip : JSValue)
  | evalProgram (code : String) (t o : JSValue)
  | submitProgram (id : String) (code : String)
  | getStatsSummary
  | getSubmitters

/-- Oracle for the remote API: one typed function per `LODAApiClient` method.
Each returns either the decoded response or the `McpError` that
`makeRequest` raises for that call. -/
structure LodaApi where
  sequenceAt : String → Except McpError SequenceDetails
  seqSearchAt : String → JSValue → JSValue → Except McpError SearchResult
  programAt : String → Except McpError ProgramDetails
  progSearchAt : String → JSValue → JSValue → Except McpError SearchResult
  evalAt : String → JSValue → JSValue → Except McpError EvalResult
  submitAt : String → String → Except McpError Unit
  statsAt : Except McpError StatsSummary
  submittersAt : Except McpError (List Submitter)

/-! ## Handlers -/

/-- Result of a successful tool call: the single text content block, plus the
search payload spread into the response by the search handlers. -/
structure ToolResult where
  text : String
  extra : Option SearchResult := none
deriving DecidableEq, Repr

/-- Outcome of one handler invocation: the settled value of its promise,
together with the outbound API requests it issued. -/
abbrev HandlerOut := Except McpError ToolResult × List ApiRequest

/-- Text rendered by `handleGetSequence`: header line, the first twenty terms
joined by ", " with "..." when more terms exist, then the optional keywords
and OEIS lines (guarded by JavaScript truthiness in the source). -/
def renderSequence (seq : SequenceDetails) : String :=
  "🔢 Sequence " ++ seq.id ++ ": " ++ seq.name ++ "\n" ++
  "First terms: " ++ String.intercalate ", " (seq.terms.take 20) ++
  (if 20 < seq.terms.length then "..." else "") ++ "\n" ++
  (match seq.keywords with
   | some ks => "Keywords: " ++ String.intercalate ", " ks ++ "\n"
   | none => "") ++
  (match seq.oeisRef with
   | some r => if r = "" then "" else "OEIS: " ++ r ++ "\n"
   | none => "")

/-- Text rendered by the search handlers: the sentinel when the result list is
empty, otherwise one "id: name" line per result and a trailing total. -/
def renderSearch (emptyMsg : String) (r : SearchResult) : String :=
  if r.results.length = 0 then emptyMsg
  else
    String.intercalate "\n" (r.results.map (fun it => it.id ++ ": " ++ it.name)) ++
    "\nTotal: " ++ toString r.total

/-- Text rendered by `handleGetProgram`; a falsy submitter renders "unknown". -/
def renderProgram (prog : ProgramDetails) : String :=
  "🔧 Program " ++ prog.id ++ ": " ++ prog.name ++ "\n" ++
  "Submitter: " ++
  (match prog.submitter with
   | some s => if s = "" then "unknown" else s
   | none => "unknown") ++ "\n" ++
  "Code:\n" ++ prog.code

/-- Handler for `get_sequence`: the id must pass `/^A\d{6,}$/` (applied to its
string coercion) before the client is called. -/
def handleGetSequence (api : LodaApi) (args : JSValue) : HandlerOut :=
  let idv := getField args "id"
  if testIdPattern (jsToString idv) = false then
    (.error ⟨.InvalidParams, "id must be a string like A000045"⟩, [])
  else
    let id := jsToString idv
    match api.sequenceAt id with
    | .error e => (.error e, [.getSequence id])
    | .ok seq => (.ok { text := renderSequence seq }, [.getSequence id])

/-- Handler for `search_sequences`: `q` must be a truthy string; `limit` and
`skip` are forwarded to the client as given. -/
def handleSearchSequences (api : LodaApi) (args : JSValue) : HandlerOut :=
  let qv := getField args "q"
  let limit := getField args "limit"
  let skip := getField args "skip"
  if jsTruthy qv = false ∨ typeOf qv ≠ "string" then
    (.error ⟨.InvalidParams, "q is required"⟩, [])
  else
    let q := strOf qv
    match api.seqSearchAt q limit skip with
    | .error e => (.error e, [.searchSequences q limit skip])
    | .ok r =>
      (.ok { text := renderSearch "No sequences found." r, extra := some r },
       [.searchSequences q limit skip])

/-- Handler for `get_program`: same id validation as `get_sequence`. -/
def handleGetProgram (api : LodaApi) (args : JSValue) : HandlerOut :=
  let idv := getField args "id"
  if testIdPattern (jsToString idv) = false then
    (.error ⟨.InvalidParams, "id must be a string like A000045"⟩, [])
  else
    let id := jsToString idv
    match api.programAt id with
    | .error e => (.error e, [.getProgram id])
    | .ok prog => (.ok { text := renderProgram prog }, [.getProgram id])

/-- Handler for `search_programs`: same shape as `search_sequences` with the
program sentinel. -/
def handleSearchPrograms (api : LodaApi) (args : JSValue) : HandlerOut :=
  let qv := getField args "q"
  let limit := getField args "limit"
  let skip := getField args "skip"
  if jsTruthy qv = false ∨ typeOf qv ≠ "string" then
    (.error ⟨.InvalidParams, "q is required"⟩, [])
  else
    let q := strOf qv
    match api.progSearchAt q limit skip with
    | .error e => (.error e, [.searchPrograms q limit skip])
    | .ok r =>
      (.ok { text := renderSearch "No programs found." r, extra := some r },
       [.searchPrograms q limit skip])

/-- Handler for `eval_program`: `code` must be a truthy string; `t` and `o`
are forwarded as given. -/
def handleEvalProgram (api : LodaApi) (args : JSValue) : HandlerOut :=
  let codev := getField args "code"
  let t := getField args "t"
  let o := getField args "o"
  if jsTruthy codev = false ∨ typeOf codev ≠ "string" then
    (.error ⟨.InvalidParams, "code is required"⟩, [])
  else
    let code := strOf codev
    match api.evalAt code t o with
    | .error e => (.error e, [.evalProgram code t o])
    | .ok r =>
      (.ok { text := "Result: " ++ String.intercalate ", " r.terms },
       [.evalProgram code t o])

/-- Handler for `submit_program`: validates the id pattern and then the code,
in that order, before calling the client. -/
def handleSubmitProgram (api : LodaApi) (args : JSValue) : HandlerOut :=
  let idv := getField args "id"
  let codev := getField args "code"
  if testIdPattern (jsToString idv) = false then
    (.error ⟨.InvalidParams, "id must be a string like A000045"⟩, [])
  else if jsTruthy codev = false ∨ typeOf codev ≠ "string" then
    (.error ⟨.InvalidParams, "code is required"⟩, [])
  else
    let id := jsToString idv
    let code := strOf codev
    match api.submitAt id code with
    | .error e => (.error e, [.submitProgram id code])
    | .ok _ =>
      (.ok { text := "Program submitted for " ++ id ++ "." },
       [.submitProgram id code])

/-- Handler for `get_stats_summary`. -/
def handleGetStatsSummary (api : LodaApi) : HandlerOut :=
  match api.statsAt with
  | .error e => (.error e, [.getStatsSummary])
  | .ok s =>
    (.ok { text := "Stats: Sequences=" ++ toString s.numSequences ++
            ", Programs=" ++ toString s.numPrograms ++
            ", Formulas=" ++ toString s.numFormulas },
     [.getStatsSummary])

/-- Handler for `get_submitters`. -/
def handleGetSubmitters (api : LodaApi) : HandlerOut :=
  match api.submittersAt with
  | .error e => (.error e, [.getSubmitters])
  | .ok subs =>
    (.ok { text := String.intercalate "\n"
            (subs.map (fun s => s.name ++ ": " ++ toString s.numPrograms ++ " programs")) },
     [.getSubmitters])

/-! ## Tool registry -/

/-- Schema of one property of a tool's input schema: JSON type, description,
and the optional numeric bounds declared on pagination and term counts. -/
structure PropSchema where
  field : String
  jsonType : String
  descr : String
  minimum : Option Int := none
  maximum : Option Int := none
deriving DecidableEq, Repr

/-- Input schema of a tool: its properties and required fields; every schema
in the source sets `additionalProperties: false`. -/
structure InputSchema where
  properties : List PropSchema
  required : List String
  additionalProperties : Bool := false
deriving DecidableEq, Repr

/-- One tool descriptor as returned by the ListTools handler. -/
structure ToolDescriptor where
  name : String
  description : String
  inputSchema : InputSchema
deriving DecidableEq, Repr

/-- The fixed descriptor list built by the ListTools handler, in source order. -/
def toolDescriptors : List ToolDescriptor :=
  [ { name := "get_program",
      description := "Get details about a LODA program by ID (e.g. A000045)",
      inputSchema :=
        { properties := [⟨"id", "string", "Program ID (e.g. A000045)", none, none⟩],
          required := ["id"] } },
    { name := "search_programs",
      description := "Search for LODA programs by keywords, ID, or name.",
      inputSchema :=
        { properties :=
            [⟨"q", "string", "Search query", none, none⟩,
             ⟨"limit", "number", "Max results", some 1, some 100⟩,
             ⟨"skip", "number", "Offset for pagination", some 0, none⟩],
          required := ["q"] } },
    { name := "eval_program",
      description := "Evaluate a LODA program and return sequence terms.",
      inputSchema :=
        { properties :=
            [⟨"code", "string", "LODA program code", none, none⟩,
             ⟨"t", "number", "Number of terms", some 1, some 10000⟩,
             ⟨"o", "number", "Offset (optional)", none, none⟩],
          required := ["code"] } },
    { name := "submit_program",
      description := "Submit a new LODA program for a sequence.",
      inputSchema :=
        { properties :=
            [⟨"id", "string", "Sequence/program ID (e.g. A000045)", none, none⟩,
             ⟨"code", "string", "LODA program code", none, none⟩],
          required := ["id", "code"] } },
    { name := "get_sequence",
      description := "Get details about an integer sequence by ID (e.g. A000045)",
      inputSchema :=
        { properties := [⟨"id", "string", "Sequence ID (e.g. A000045)", none, none⟩],
          required := ["id"] } },
    { name := "search_sequences",
      description := "Search for integer sequences by keywords, ID, or name.",
      inputSchema :=
        { properties :=
            [⟨"q", "string", "Search query", none, none⟩,
             ⟨"limit", "number", "Max results", some 1, some 100⟩,
             ⟨"skip", "number", "Offset for pagination", some 0, none⟩],
          required := ["q"] } },
    { name := "get_stats_summary",
      description := "Get statistics summary for the LODA project.",
      inputSchema := { properties := [], required := [] } },
    { name := "get_submitters",
      description := "List all submitters and their number of programs.",
      inputSchema := { properties := [], required := [] } } ]

/-- The ListTools handler: it returns the literal descriptor list and touches
no other state; the request log records that no API call is made. -/
def listTools (_u : Unit) : List ToolDescriptor × List ApiRequest :=
  (toolDescriptors, [])

/-- Tool names with a dispatch case, in the order of the `switch`. -/
def registeredTools : List String :=
  ["get_program", "search_programs", "eval_program", "submit_program",
   "get_sequence", "search_sequences", "get_stats_summary", "get_submitters"]

/-! ## Request dispatcher -/

/-- Argument coercion at the top of the CallTool handler:
`(args && typeof args === 'object') ? args : {}`. -/
def coerceArgs (v : JSValue) : JSValue :=
  if jsTruthy v = true ∧ typeOf v = "object" then v else .obj []

/-- The CallTool dispatcher. Every handler in the source is `async` and the
`switch` returns each handler's promise without `await`, so a handler
rejection bypasses the surrounding `try`/`catch` and reaches the caller
unchanged. The only throw the `catch` can intercept is the synchronous
`MethodNotFound` throw of the `default` branch, which it re-wraps as an
`InternalError` built from the caught error's JavaScript message. -/
def dispatchCallTool (api : LodaApi) (name : String) (rawArgs : JSValue) : HandlerOut :=
  let safeArgs := coerceArgs rawArgs
  match name with
  | "get_program" => handleGetProgram api safeArgs
  | "search_programs" => handleSearchPrograms api safeArgs
  | "eval_program" => handleEvalProgram api safeArgs
  | "submit_program" => handleSubmitProgram api safeArgs
  | "get_sequence" => handleGetSequence api safeArgs
  | "search_sequences" => handleSearchSequences api safeArgs
  | "get_stats_summary" => handleGetStatsSummary api
  | "get_submitters" => handleGetSubmitters api
  | _ =>
    let unknown : McpError := ⟨.MethodNotFound, "Unknown tool: " ++ name⟩
    (.error ⟨.InternalError, "Error executing tool " ++ name ++ ": " ++ unknown.jsMessage⟩,
     [])

/-- Error code of a handler outcome, when it is an error. -/
def resultErrCode (r : Except McpError ToolResult) : Option ErrorCode :=
  match r with
  | .error e => some e.code
  | .ok _ => none

/-! ## API adapter: `makeRequest` -/

/-- Containment of one string in another, as `String.prototype.includes`. -/
def strContains (hay needle : String) : Prop := needle.data <:+: hay.data

instance (hay needle : String) : Decidable (strContains hay needle) :=
  List.decidableInfix needle.data hay.data

/-- The response the `fetch` call resolved with, as far as `makeRequest`
inspects it: `ok`, `status`, `statusText`, the text body (`none` when reading
the body itself throws, which the inner `catch` swallows), and the decoded
payload selected by the content type. -/
structure FetchResponse where
  ok : Bool
  status : Nat
  statusText : String
  bodyText : Option String
  jsonContentType : Bool
  jsonBody : JSValue

/-- Outcome of the `fetch` call itself: a settled response, or a thrown
`Error` with the given message (DNS failure, connection refused, ...). -/
inductive FetchOutcome where
  | success (r : FetchResponse)
  | fetchThrow (message : String)

/-- Decoded body returned by `makeRequest` on success. -/
inductive ApiBody where
  | json (v : JSValue)
  | text (s : String)

/-- The " - <body>" suffix appended to the HTTP error message when the body
text could be read and is non-empty. -/
def httpErrorSuffix (r : FetchResponse) : String :=
  match r.bodyText with
  | some b => if b = "" then "" else " - " ++ b
  | none => ""

/-- `LODAApiClient.makeRequest`: a non-ok status raises an `InternalError`
prefixed "LODA API request failed: " and carrying "HTTP <status>: <statusText>"
plus the body text when present; a thrown fetch error whose message mentions
"fetch" raises the network-unreachable `InternalError` naming the base URL;
any other thrown `Error` raises "Request error: <message>". An `McpError`
raised inside the `try` is re-thrown unchanged by the outer `catch`. -/
def makeRequest (baseUrl : String) (outcome : FetchOutcome) : Except McpError ApiBody :=
  match outcome with
  | .success r =>
    if r.ok = false then
      .error ⟨.InternalError,
        "LODA API request failed: HTTP " ++ toString r.status ++ ": " ++
          r.statusText ++ httpErrorSuffix r⟩
    else if r.jsonContentType then .ok (.json r.jsonBody)
    else .ok (.text (r.bodyText.getD ""))
  | .fetchThrow message =>
    if strContains message "fetch" then
      .error ⟨.InternalError,
        "Network error: Unable to connect to LODA API at " ++ baseUrl⟩
    else
      .error ⟨.InternalError, "Request error: " ++ message⟩

/-! ## HTTP transport front end

The session table and its maintenance (`runHttp`) are in the source. The
transport objects themselves come from the MCP SDK, which is not part of this
repository; their reaction to a request is modelled from the spec: a transport
rejects as unknown any request that carries a session id it has not itself
assigned, and a `DELETE` reaching a session's transport terminates that
session, which signals closure and runs the `onclose` callback installed by
`runHttp` (that callback, from the source, removes the session id from the
table). Session ids are generated by `randomUUID`; its freshness is modelled
by drawing ids from a counter that the state carries. -/

/-- Session identifiers (model of the UUID strings). -/
abbrev Sid := Nat

/-- Identity of one transport instance. -/
abbrev Tid := Nat

/-- State of the HTTP front end: the `transports` table mapping each live
session id to its transport, plus the id counters modelling `randomUUID`
freshness and transport allocation. -/
structure HttpState where
  table : List (Sid × Tid)
  nextSid : Nat
  nextTid : Nat
deriving DecidableEq, Repr

/-- One incoming HTTP request on the `/mcp` path. A `post` carries the
optional `mcp-session-id` header and whether its body is an initialization
request; `get` and `sessionDelete` carry only the header. `transportClosed`
models a transport signalling closure on its own (client disconnect). -/
inductive HttpEvent where
  | post (sid : Option Sid) (isInitBody : Bool)
  | get (sid : Option Sid)
  | sessionDelete (sid : Option Sid)
  | transportClosed (sid : Sid)
deriving DecidableEq, Repr

/-- How the front end disposed of a request. -/
inductive HttpResult where
  | routedTo (t : Tid)
  | newSession (s : Sid) (t : Tid)
  | rejectedByTransport
  | rejected400
  | noResponse
deriving DecidableEq, Repr

/-- Handling of a POST that found no table entry for its session header: a
fresh transport is created. Modelled from the spec for the transport's part:
a request carrying a session id unknown to the (fresh) transport is rejected
as unknown; an initialization request without a session id assigns the fresh
id, upon which `onsessioninitialized` (source) stores the association. -/
def freshTransportPost (st : HttpState) (sid : Option Sid) (isInitBody : Bool) :
    HttpState × HttpResult :=
  let t := st.nextTid
  match sid, isInitBody with
  | some _, _ => ({ st with nextTid := t + 1 }, .rejectedByTransport)
  | none, false => ({ st with nextTid := t + 1 }, .rejectedByTransport)
  | none, true =>
    ({ table := (st.nextSid, t) :: st.table,
       nextSid := st.nextSid + 1,
       nextTid := t + 1 },
     .newSession st.nextSid t)

/-- Removal of a session id from the table, as the `onclose` callback's
`delete transports[transport.sessionId]`. -/
def removeSession (l : List (Sid × Tid)) (s : Sid) : List (Sid × Tid) :=
  l.filter (fun p => p.1 ≠ s)

/-- One step of the HTTP front end, from the source's three route handlers:
POST routes to the session's transport or creates a fresh one; GET and DELETE
require a recognized session id and answer 400 otherwise; a DELETE reaching a
transport terminates the session and the `onclose` callback removes the table
entry. -/
def httpStep (st : HttpState) (e : HttpEvent) : HttpState × HttpResult :=
  match e with
  | .post sid isInitBody =>
    match sid with
    | some s =>
      match st.table.lookup s with
      | some t => (st, .routedTo t)
      | none => freshTransportPost st (some s) isInitBody
    | none => freshTransportPost st none isInitBody
  | .get sid =>
    match sid with
    | none => (st, .rejected400)
    | some s =>
      match st.table.lookup s with
      | none => (st, .rejected400)
      | some t => (st, .routedTo t)
  | .sessionDelete sid =>
    match sid with
    | none => (st, .rejected400)
    | some s =>
      match st.table.lookup s with
      | none => (st, .rejected400)
      | some t =>
        ({ st with table := removeSession st.table s }, .routedTo t)
  | .transportClosed s =>
    ({ st with table := removeSession st.table s }, .noResponse)

/-- Iterated stepping over a request trace. -/
def httpRun (st : HttpState) : List HttpEvent → HttpState
  | [] => st
  | e :: rest => httpRun (httpStep st e).1 rest

/-- Well-formedness of the front-end state: every live session id was drawn
from the generator, so it is below the freshness counter. -/
def HttpInv (st : HttpState) : Prop :=
  ∀ p ∈ st.table, p.1 < st.nextSid

/-! ## Concrete oracles used to instantiate the theorems -/

/-- Remote API stub that answers every endpoint successfully. -/
def stubApi : LodaApi :=
  { sequenceAt := fun _ => .ok ⟨"A000045", "Fibonacci numbers", ["0", "1", "1", "2", "3"], none, none⟩,
    seqSearchAt := fun _ _ _ => .ok ⟨0, []⟩,
    programAt := fun _ => .ok ⟨"A000045", "Fibonacci numbers", "mov $0,1", none, none, none⟩,
    progSearchAt := fun _ _ _ => .ok ⟨0, []⟩,
    evalAt := fun _ _ _ => .ok ⟨["0", "1"]⟩,
    submitAt := fun _ _ => .ok (),
    statsAt := .ok ⟨1, 2, 3⟩,
    submittersAt := .ok [] }

/-- Error raised by `makeRequest` for an upstream HTTP 500 with the standard
status text and an unreadable body. -/
def err500 : McpError :=
  ⟨.InternalError, "LODA API request failed: HTTP 500: Internal Server Error"⟩

/-- Remote API stub whose every endpoint fails with `err500`, modelling an
upstream that answers HTTP 500 to all requests. -/
def api500 : LodaApi :=
  { sequenceAt := fun _ => .error err500,
    seqSearchAt := fun _ _ _ => .error err500,
    programAt := fun _ => .error err500,
    progSearchAt := fun _ _ _ => .error err500,
    evalAt := fun _ _ _ => .error err500,
    submitAt := fun _ _ => .error err500,
    statsAt := .error err500,
    submittersAt := .error err500 }

/-! ## Theorems -/

/-- C7: the dispatcher coerces an absent or non-object raw arguments value to
an empty mapping, and the value a handler receives is always an object (in
the JavaScript `typeof` sense) and never `null`. -/
theorem args_coerced_to_object (v : JSValue) :
    typeOf (coerceArgs v) = "object" ∧
    coerceArgs v ≠ .null ∧
    ((jsTruthy v = false ∨ typeOf v ≠ "object") → coerceArgs v = .obj []) := by
  unfold coerceArgs
  by_cases h : jsTruthy v = true ∧ typeOf v = "object"
  · rw [if_pos h]
    refine ⟨h.2, ?_, ?_⟩
    · intro hnull
      rw [hnull] at h
      simp [jsTruthy] at h
    · rintro (hf | ht)
      · rw [h.1] at hf; cases hf
      · exact absurd h.2 ht
  · rw [if_neg h]
    exact ⟨rfl, by simp, fun _ => rfl⟩

/-- Witness for C7 at the concrete non-object value `5`: the coercion yields
the empty object. -/
theorem args_coerced_to_object_witness :
    typeOf (coerceArgs (.num 5)) = "object" ∧ coerceArgs (.num 5) = .obj [] :=
  ⟨(args_coerced_to_object (.num 5)).1,
   (args_coerced_to_object (.num 5)).2.2 (Or.inr (by decide))⟩

/-- C8: tool discovery is pure and idempotent: every call returns the same
descriptor list, in the same order, with the registry's eight tool names,
no duplicate names, and no outbound API request. -/
theorem list_tools_idempotent_pure (u v : Unit) :
    listTools u = listTools v ∧
    (listTools u).2 = [] ∧
    (listTools u).1.map ToolDescriptor.name = registeredTools ∧
    ((listTools u).1.map ToolDescriptor.name).Nodup ∧
    (listTools u).1 = toolDescriptors :=
  ⟨rfl, rfl, rfl,
   by show (toolDescriptors.map ToolDescriptor.name).Nodup; decide, rfl⟩

/-- C10: a search call whose `q` argument is the empty string (present but
falsy) fails with `InvalidParams` "q is required" and issues no API request,
for both search tools. -/
theorem empty_query_invalidParams (api : LodaApi) (limit skip : JSValue) :
    handleSearchSequences api (.obj [("q", .str ""), ("limit", limit), ("skip", skip)]) =
      (.error ⟨.InvalidParams, "q is required"⟩, []) ∧
    handleSearchPrograms api (.obj [("q", .str ""), ("limit", limit), ("skip", skip)]) =
      (.error ⟨.InvalidParams, "q is required"⟩, []) :=
  ⟨rfl, rfl⟩

/-- C9: a successful `get_sequence` call renders the sequence via
`renderSequence`, whose terms line shows exactly the first twenty terms
joined by ", " (a segment of the full term list, of length at most twenty)
and carries the ellipsis "..." exactly when more than twenty terms exist. -/
theorem get_sequence_terms_rendering (api : LodaApi) (idv : JSValue) (seq : SequenceDetails)
    (hid : testIdPattern (jsToString idv) = true)
    (h : api.sequenceAt (jsToString idv) = .ok seq) :
    (handleGetSequence api (.obj [("id", idv)])).1 = .ok { text := renderSequence seq } ∧
    ∃ rest tailPart,
      seq.terms = seq.terms.take 20 ++ rest ∧
      (seq.terms.take 20).length ≤ 20 ∧
      renderSequence seq =
        "🔢 Sequence " ++ seq.id ++ ": " ++ seq.name ++ "\n" ++
        "First terms: " ++ String.intercalate ", " (seq.terms.take 20) ++
        (if 20 < seq.terms.length then "..." else "") ++ "\n" ++ tailPart ∧
      ((if 20 < seq.terms.length then "..." else "") = "..." ↔ 20 < seq.terms.length) := by
  constructor
  · unfold handleGetSequence
    simp [getField, List.lookup, hid, h]
  · refine ⟨seq.terms.drop 20,
      (match seq.keywords with
       | some ks => "Keywords: " ++ String.intercalate ", " ks ++ "\n"
       | none => "") ++
      (match seq.oeisRef with
       | some r => if r = "" then "" else "OEIS: " ++ r ++ "\n"
       | none => ""), ?_, ?_, ?_, ?_⟩
    · exact (List.take_append_drop 20 seq.terms).symm
    · exact List.length_take_le 20 seq.terms
    · unfold renderSequence
      simp [String.append_assoc]
    · constructor
      · intro hdots
        by_contra hn
        rw [if_neg hn] at hdots
        exact absurd hdots (by decide)
      · intro hgt
        rw [if_pos hgt]

/-- Witness for C9 at the stub API and id "A000045": the rendered text shows
the five stub terms with no ellipsis. -/
theorem get_sequence_terms_rendering_witness :
    (handleGetSequence stubApi (.obj [("id", .str "A000045")])).1 =
      .ok { text := "🔢 Sequence A000045: Fibonacci numbers\nFirst terms: 0, 1, 1, 2, 3\n" } :=
  (get_sequence_terms_rendering stubApi (.str "A000045")
    ⟨"A000045", "Fibonacci numbers", ["0", "1", "1", "2", "3"], none, none⟩
    (by decide) rfl).1

/-- C4: an id whose string coercion fails the `/^A\d{6,}$/` pattern makes
`get_sequence`, `get_program` and `submit_program` fail with `InvalidParams`
and an empty request log, so no API call is made. -/
theorem malformed_id_rejected_before_api (api : LodaApi) (idv codev : JSValue)
    (h : testIdPattern (jsToString idv) = false) :
    handleGetSequence api (.obj [("id", idv)]) =
      (.error ⟨.InvalidParams, "id must be a string like A000045"⟩, []) ∧
    handleGetProgram api (.obj [("id", idv)]) =
      (.error ⟨.InvalidParams, "id must be a string like A000045"⟩, []) ∧
    handleSubmitProgram api (.obj [("id", idv), ("code", codev)]) =
      (.error ⟨.InvalidParams, "id must be a string like A000045"⟩, []) := by
  refine ⟨?_, ?_, ?_⟩
  · unfold handleGetSequence
    simp [getField, List.lookup, h]
  · unfold handleGetProgram
    simp [getField, List.lookup, h]
  · unfold handleSubmitProgram
    simp [getField, List.lookup, h]

/-- Witness for C4 at the malformed id "Z45". -/
theorem malformed_id_rejected_before_api_witness :
    handleGetSequence stubApi (.obj [("id", .str "Z45")]) =
      (.error ⟨.InvalidParams, "id must be a string like A000045"⟩, []) ∧
    handleSubmitProgram stubApi (.obj [("id", .str "Z45"), ("code", .str "mov $0,1")]) =
      (.error ⟨.InvalidParams, "id must be a string like A000045"⟩, []) :=
  ⟨(malformed_id_rejected_before_api stubApi (.str "Z45") (.str "mov $0,1") (by decide)).1,
   (malformed_id_rejected_before_api stubApi (.str "Z45") (.str "mov $0,1") (by decide)).2.2⟩

/-- C1 counterexample: dispatching the unregistered tool name "frobnicate"
does not fail with `MethodNotFound`: the `default` branch's throw is caught
by the dispatcher's own `catch` and re-wrapped, so the caller sees
`InternalError` (no API request is issued, as the claim says). -/
theorem unknown_tool_not_methodNotFound_cex :
    resultErrCode (dispatchCallTool stubApi "frobnicate" (.obj [])).1 = some .InternalError ∧
    resultErrCode (dispatchCallTool stubApi "frobnicate" (.obj [])).1 ≠ some .MethodNotFound ∧
    (dispatchCallTool stubApi "frobnicate" (.obj [])).2 = [] ∧
    (dispatchCallTool stubApi "frobnicate" (.obj [])).1 =
      .error ⟨.InternalError,
        "Error executing tool frobnicate: MCP error -32601: Unknown tool: frobnicate"⟩ :=
  ⟨rfl, by decide, rfl, rfl⟩

/-- C1 amended: dispatching an unregistered tool name issues no API request
and fails with an `InternalError` that wraps the `MethodNotFound` error's
JavaScript message inside "Error executing tool <name>: ...". -/
theorem unknown_tool_wrapped_internalError (api : LodaApi) (name : String) (rawArgs : JSValue)
    (h : name ∉ registeredTools) :
    dispatchCallTool api name rawArgs =
      (.error ⟨.InternalError,
        "Error executing tool " ++ name ++ ": " ++
          McpError.jsMessage ⟨.MethodNotFound, "Unknown tool: " ++ name⟩⟩, []) := by
  simp only [registeredTools, List.mem_cons, List.not_mem_nil, or_false, not_or] at h
  obtain ⟨h1, h2, h3, h4, h5, h6, h7, h8⟩ := h
  unfold dispatchCallTool
  split <;> simp_all

/-- Witness for C1's amended theorem at the concrete name "frobnicate". -/
theorem unknown_tool_wrapped_internalError_witness :
    dispatchCallTool stubApi "frobnicate" (.arr [.num 1]) =
      (.error ⟨.InternalError,
        "Error executing tool frobnicate: MCP error -32601: Unknown tool: frobnicate"⟩, []) :=
  unknown_tool_wrapped_internalError stubApi "frobnicate" (.arr [.num 1]) (by decide)

/-- C2 counterexample: a network-level failure raised inside the
`get_sequence` handler reaches the caller exactly as the API client produced
it; its message does not embed the tool name, so the dispatcher did not
re-wrap it. -/
theorem handler_error_not_wrapped_cex :
    (dispatchCallTool api500 "get_sequence" (.obj [("id", .str "A000045")])).1 =
      .error ⟨.InternalError, "LODA API request failed: HTTP 500: Internal Server Error"⟩ ∧
    ¬ strContains "LODA API request failed: HTTP 500: Internal Server Error" "get_sequence" :=
  ⟨rfl, by decide⟩

/-- C2 amended: handler rejections propagate to the caller unchanged, because
the handlers' promises are returned without `await`: an API-client error
passes through verbatim (no tool name added, no re-wrap), and a validation
failure propagates as `InvalidParams` unchanged. -/
theorem handler_rejections_propagate_unchanged (api : LodaApi) (e : McpError)
    (h : api.sequenceAt "A000045" = .error e) :
    dispatchCallTool api "get_sequence" (.obj [("id", .str "A000045")]) =
      (.error e, [.getSequence "A000045"]) ∧
    dispatchCallTool api "search_sequences" (.obj [("q", .str "")]) =
      (.error ⟨.InvalidParams, "q is required"⟩, []) := by
  constructor
  · have hd : dispatchCallTool api "get_sequence" (.obj [("id", .str "A000045")]) =
        (match api.sequenceAt "A000045" with
         | .error e2 => (.error e2, [.getSequence "A000045"])
         | .ok seq => (.ok { text := renderSequence seq }, [.getSequence "A000045"])) := rfl
    rw [hd, h]
  · rfl

/-- Witness for C2's amended theorem at the all-500 stub API. -/
theorem handler_rejections_propagate_unchanged_witness :
    dispatchCallTool api500 "get_sequence" (.obj [("id", .str "A000045")]) =
      (.error ⟨.InternalError, "LODA API request failed: HTTP 500: Internal Server Error"⟩,
       [.getSequence "A000045"]) ∧
    dispatchCallTool api500 "search_sequences" (.obj [("q", .str "")]) =
      (.error ⟨.InvalidParams, "q is required"⟩, []) :=
  handler_rejections_propagate_unchanged api500 err500 rfl

/-- C3 counterexample: a `search_sequences` call with `limit = 0` does not
fail with `InvalidParams`; the out-of-range value is forwarded to the remote
API in the one request the handler issues. -/
theorem limit_zero_forwarded_cex :
    (dispatchCallTool stubApi "search_sequences"
        (.obj [("q", .str "fib"), ("limit", .num 0)])).2 =
      [.searchSequences "fib" (.num 0) .undefined] ∧
    resultErrCode (dispatchCallTool stubApi "search_sequences"
        (.obj [("q", .str "fib"), ("limit", .num 0)])).1 ≠ some .InvalidParams :=
  ⟨rfl, by decide⟩

/-- C3 amended: the schema bounds limit ∈ [1,100] and skip ≥ 0 exist only as
descriptor metadata; the handlers perform no range check and forward `limit`
and `skip` to the API client verbatim, for any values. -/
theorem pagination_forwarded_unvalidated (api : LodaApi) (q : String) (hq : q ≠ "")
    (limit skip : JSValue) :
    (handleSearchSequences api (.obj [("q", .str q), ("limit", limit), ("skip", skip)])).2 =
      [.searchSequences q limit skip] ∧
    (handleSearchPrograms api (.obj [("q", .str q), ("limit", limit), ("skip", skip)])).2 =
      [.searchPrograms q limit skip] ∧
    (∃ d, d ∈ toolDescriptors ∧ d.name = "search_sequences" ∧
      (⟨"limit", "number", "Max results", some 1, some 100⟩ : PropSchema) ∈
        d.inputSchema.properties ∧
      (⟨"skip", "number", "Offset for pagination", some 0, none⟩ : PropSchema) ∈
        d.inputSchema.properties) := by
  refine ⟨?_, ?_, by decide⟩
  · unfold handleSearchSequences
    simp only [getField, List.lookup, beq_self_eq_true]
    simp [jsTruthy, typeOf, strOf, hq]
    cases api.seqSearchAt q limit skip <;> simp
  · unfold handleSearchPrograms
    simp only [getField, List.lookup, beq_self_eq_true]
    simp [jsTruthy, typeOf, strOf, hq]
    cases api.progSearchAt q limit skip <;> simp

/-- Witness for C3's amended theorem with the out-of-range values
`limit = 101` and `skip = -1`: both are forwarded verbatim. -/
theorem pagination_forwarded_unvalidated_witness :
    (handleSearchSequences stubApi
        (.obj [("q", .str "fib"), ("limit", .num 101), ("skip", .num (-1))])).2 =
      [.searchSequences "fib" (.num 101) (.num (-1))] ∧
    (handleSearchPrograms stubApi
        (.obj [("q", .str "fib"), ("limit", .num 101), ("skip", .num (-1))])).2 =
      [.searchPrograms "fib" (.num 101) (.num (-1))] :=
  ⟨(pagination_forwarded_unvalidated stubApi "fib" (by decide) (.num 101) (.num (-1))).1,
   (pagination_forwarded_unvalidated stubApi "fib" (by decide) (.num 101) (.num (-1))).2.1⟩

/-- C6: a non-success HTTP status makes `makeRequest` fail with an
`InternalError` whose message is prefixed "LODA API request failed: " and
carries the numeric status, the status text, and the body text when present;
when the status is 500 the message contains the substring "500". -/
theorem non_success_status_internalError (baseUrl : String) (r : FetchResponse)
    (h : r.ok = false) :
    makeRequest baseUrl (.success r) =
      .error ⟨.InternalError,
        "LODA API request failed: HTTP " ++ toString r.status ++ ": " ++
          r.statusText ++ httpErrorSuffix r⟩ ∧
    (r.status = 500 →
      strContains ("LODA API request failed: HTTP " ++ toString r.status ++ ": " ++
        r.statusText ++ httpErrorSuffix r) "500") := by
  constructor
  · simp [makeRequest, h]
  · intro h500
    rw [h500]
    show "500".data <:+:
      ("LODA API request failed: HTTP " ++ toString (500 : Nat) ++ ": " ++
        r.statusText ++ httpErrorSuffix r).data
    have h5 : toString (500 : Nat) = "500" := rfl
    rw [h5]
    refine ⟨"LODA API request failed: HTTP ".data,
      (": " ++ r.statusText ++ httpErrorSuffix r).data, ?_⟩
    simp [String.data_append, List.append_assoc]

/-- Witness for C6 at a concrete 500 response with body "boom". -/
theorem non_success_status_internalError_witness :
    makeRequest "https://api.loda-lang.org/v2"
        (.success ⟨false, 500, "Internal Server Error", some "boom", false, .null⟩) =
      .error ⟨.InternalError,
        "LODA API request failed: HTTP 500: Internal Server Error - boom"⟩ ∧
    strContains "LODA API request failed: HTTP 500: Internal Server Error - boom" "500" := by
  have h := non_success_status_internalError "https://api.loda-lang.org/v2"
    ⟨false, 500, "Internal Server Error", some "boom", false, .null⟩ rfl
  exact ⟨h.1, h.2 rfl⟩

/-- Looking up a key under a mismatching head falls through to the rest. -/
theorem lookup_cons_ne (s k : Sid) (v : Tid) (l : List (Sid × Tid)) (h : s ≠ k) :
    ((k, v) :: l).lookup s = l.lookup s := by
  have hbeq : (s == k) = false := beq_eq_false_iff_ne.mpr h
  simp [List.lookup, hbeq]

/-- Removing every pair with key `s` makes a lookup of `s` fail. -/
theorem lookup_removeSession_self (l : List (Sid × Tid)) (s : Sid) :
    (removeSession l s).lookup s = none := by
  induction l with
  | nil => rfl
  | cons p rest ih =>
    obtain ⟨k, v⟩ := p
    simp only [removeSession, List.filter_cons] at ih ⊢
    by_cases h : k = s
    · rw [if_neg (by simp [h])]
      exact ih
    · rw [if_pos (by simp [h])]
      rw [lookup_cons_ne s k v _ (Ne.symm h)]
      exact ih

/-- Removal of one session preserves the absence of another key. -/
theorem lookup_removeSession_none (l : List (Sid × Tid)) (s s2 : Sid)
    (h : l.lookup s = none) : (removeSession l s2).lookup s = none := by
  induction l with
  | nil => rfl
  | cons a rest ih =>
    obtain ⟨k, v⟩ := a
    by_cases hk : s = k
    · subst hk
      simp [List.lookup] at h
    · have h2 : rest.lookup s = none := by rwa [lookup_cons_ne s k v rest hk] at h
      simp only [removeSession, List.filter_cons] at ih ⊢
      by_cases hp : k = s2
      · rw [if_neg (by simp [hp])]
        exact ih h2
      · rw [if_pos (by simp [hp])]
        rw [lookup_cons_ne s k v _ hk]
        exact ih h2

/-- A successful lookup exhibits a member of the table. -/
theorem lookup_some_mem (l : List (Sid × Tid)) (s : Sid) (t : Tid)
    (h : l.lookup s = some t) : (s, t) ∈ l := by
  induction l with
  | nil => cases h
  | cons a rest ih =>
    obtain ⟨k, v⟩ := a
    by_cases hk : s = k
    · subst hk
      simp [List.lookup] at h
      simp [h]
    · have h2 : rest.lookup s = some t := by rwa [lookup_cons_ne s k v rest hk] at h
      exact List.mem_cons_of_mem _ (ih h2)

/-- A session id that was already issued (it is below the freshness counter)
and is not in the table. Once destroyed, a session id satisfies this and, by
the lemmas below, keeps satisfying it forever. -/
def SessionAbsent (s : Sid) (st : HttpState) : Prop :=
  s < st.nextSid ∧ st.table.lookup s = none

/-- One front-end step either keeps the table, filters it, or prepends the
freshly generated session id while bumping the generator. -/
theorem httpStep_table_cases (st : HttpState) (e : HttpEvent) :
    ((httpStep st e).1.table = st.table ∧ (httpStep st e).1.nextSid = st.nextSid) ∨
    ((∃ s2, (httpStep st e).1.table = removeSession st.table s2) ∧
      (httpStep st e).1.nextSid = st.nextSid) ∨
    ((httpStep st e).1.table = (st.nextSid, st.nextTid) :: st.table ∧
      (httpStep st e).1.nextSid = st.nextSid + 1) := by
  cases e with
  | post sid b =>
    cases sid with
    | some s2 =>
      cases hl : st.table.lookup s2 with
      | some t => left; simp [httpStep, hl]
      | none => left; simp [httpStep, hl, freshTransportPost]
    | none =>
      cases b with
      | false => left; simp [httpStep, freshTransportPost]
      | true => right; right; simp [httpStep, freshTransportPost]
  | get sid =>
    cases sid with
    | none => left; simp [httpStep]
    | some s2 =>
      cases hl : st.table.lookup s2 with
      | some t => left; simp [httpStep, hl]
      | none => left; simp [httpStep, hl]
  | sessionDelete sid =>
    cases sid with
    | none => left; simp [httpStep]
    | some s2 =>
      cases hl : st.table.lookup s2 with
      | some t =>
        right; left
        exact ⟨⟨s2, by simp [httpStep, hl]⟩, by simp [httpStep, hl]⟩
      | none => left; simp [httpStep, hl]
  | transportClosed s2 =>
    right; left
    exact ⟨⟨s2, by simp [httpStep]⟩, by simp [httpStep]⟩

/-- One step preserves the permanent absence of a destroyed session id: the
only insertion ever made uses the fresh id from the generator, which the
absent id is strictly below. -/
theorem sessionAbsent_step (s : Sid) (st : HttpState) (e : HttpEvent)
    (h : SessionAbsent s st) : SessionAbsent s (httpStep st e).1 := by
  obtain ⟨hlt, hnone⟩ := h
  rcases httpStep_table_cases st e with ⟨ht, hn⟩ | ⟨⟨s2, ht⟩, hn⟩ | ⟨ht, hn⟩
  · exact ⟨by rw [hn]; exact hlt, by rw [ht]; exact hnone⟩
  · exact ⟨by rw [hn]; exact hlt, by rw [ht]; exact lookup_removeSession_none _ _ _ hnone⟩
  · refine ⟨by rw [hn]; exact Nat.lt_succ_of_lt hlt, ?_⟩
    rw [ht]
    rw [lookup_cons_ne s st.nextSid st.nextTid _ (Nat.ne_of_lt hlt)]
    exact hnone

/-- Absence of a destroyed session id is preserved along any trace. -/
theorem sessionAbsent_run (s : Sid) (st : HttpState) (evs : List HttpEvent)
    (h : SessionAbsent s st) : SessionAbsent s (httpRun st evs) := by
  induction evs generalizing st with
  | nil => exact h
  | cons e rest ih => exact ih _ (sessionAbsent_step s st e h)

/-- C5: in HTTP mode, after a `DELETE` on a valid session id destroys that
session, every later `POST` or `GET` carrying the same id is rejected as
unknown — the `GET` with the 400 client error, the `POST` by the fresh
transport — and in particular no such request is ever routed to any
transport, let alone the destroyed session's stale one. -/
theorem session_delete_permanent (st : HttpState) (s : Sid) (t : Tid)
    (hInv : HttpInv st) (hs : st.table.lookup s = some t) (evs : List HttpEvent) :
    (httpRun (httpStep st (.sessionDelete (some s))).1 evs).table.lookup s = none ∧
    (∀ b, (httpStep (httpRun (httpStep st (.sessionDelete (some s))).1 evs)
        (.post (some s) b)).2 = .rejectedByTransport) ∧
    (httpStep (httpRun (httpStep st (.sessionDelete (some s))).1 evs)
        (.get (some s))).2 = .rejected400 ∧
    (∀ b t2, (httpStep (httpRun (httpStep st (.sessionDelete (some s))).1 evs)
        (.post (some s) b)).2 ≠ .routedTo t2) := by
  have hlt : s < st.nextSid := hInv (s, t) (lookup_some_mem _ _ _ hs)
  have h1 : SessionAbsent s (httpStep st (.sessionDelete (some s))).1 := by
    constructor
    · simpa [httpStep, hs] using hlt
    · simp only [httpStep, hs]
      exact lookup_removeSession_self _ _
  obtain ⟨hlt2, hnone2⟩ := sessionAbsent_run s _ evs h1
  have key : ∀ st2 : HttpState, st2.table.lookup s = none →
      (∀ b, (httpStep st2 (.post (some s) b)).2 = .rejectedByTransport) ∧
      (httpStep st2 (.get (some s))).2 = .rejected400 ∧
      (∀ b t2, (httpStep st2 (.post (some s) b)).2 ≠ .routedTo t2) := by
    intro st2 hn
    refine ⟨?_, ?_, ?_⟩
    · intro b
      simp [httpStep, hn, freshTransportPost]
    · simp [httpStep, hn]
    · intro b t2
      simp [httpStep, hn, freshTransportPost]
  exact ⟨hnone2, (key _ hnone2).1, (key _ hnone2).2.1, (key _ hnone2).2.2⟩

/-- Witness for C5: a one-session state; after the `DELETE` and an unrelated
interleaved trace, the destroyed id is gone and a `POST` and `GET` carrying
it are rejected. -/
theorem session_delete_permanent_witness :
    ((httpRun (httpStep ⟨[(0, 100)], 1, 101⟩ (.sessionDelete (some 0))).1
        [.post none true, .get (some 0)]).table.lookup 0 = none) ∧
    (httpStep (httpRun (httpStep ⟨[(0, 100)], 1, 101⟩ (.sessionDelete (some 0))).1
        [.post none true, .get (some 0)]) (.post (some 0) true)).2 = .rejectedByTransport ∧
    (httpStep (httpRun (httpStep ⟨[(0, 100)], 1, 101⟩ (.sessionDelete (some 0))).1
        [.post none true, .get (some 0)]) (.get (some 0))).2 = .rejected400 := by
  have h := session_delete_permanent ⟨[(0, 100)], 1, 101⟩ 0 100
    (by unfold HttpInv; decide) rfl [.post none true, .get (some 0)]
  exact ⟨h.1, h.2.1 true, h.2.2.1⟩

end LodaMcp
